import Mathlib

/-
  Verification development for the log ingestion / anomaly detection pipeline.

  Each service of the pipeline is shallowly embedded as executable Lean
  definitions translated from the Python source
  (app/services/pii_service.py, metadata_extractor.py, embedding_service.py,
  anomaly_detection_service.py, ingestion_service.py, clustering_service.py,
  storage_service.py, llm_reasoning_service.py).  External collaborators
  (the Presidio analyzer/anonymizer, the OpenAI client, the database) are
  modelled as explicit function parameters; machine floats are modelled as
  rationals; Python dicts as association lists.
-/

set_option autoImplicit false

namespace LogPipeline

/-! ### Basic character/string helpers shared by the regex embeddings -/

/-- Python regex word character (ASCII fragment of re \w). -/
def isWordChar (c : Char) : Bool :=
  c.isAlphanum || c = '_'

/-- Python regex whitespace (re \s): space, tab, newline, carriage return,
vertical tab, form feed. -/
def pyIsSpace (c : Char) : Bool :=
  c = ' ' || c = '\t' || c = '\n' || c = '\r' || c = '\x0b' || c = '\x0c'

/-- Python str.upper restricted to ASCII, applied characterwise. -/
def pyUpper (s : String) : String :=
  String.mk (s.data.map Char.toUpper)

/-- Maximal run of decimal digits at the head of the list, with the rest. -/
def takeDigits : List Char → List Char × List Char
  | [] => ([], [])
  | c :: cs =>
    if c.isDigit then
      let (d, r) := takeDigits cs
      (c :: d, r)
    else ([], c :: cs)

/-- Maximal run of characters satisfying p at the head of the list. -/
def takeWhileSplit (p : Char → Bool) : List Char → List Char × List Char
  | [] => ([], [])
  | c :: cs =>
    if p c then
      let (d, r) := takeWhileSplit p cs
      (c :: d, r)
    else ([], c :: cs)

/-- Case-sensitive literal match at the head; returns the rest on success. -/
def matchLit : List Char → List Char → Option (List Char)
  | [], l => some l
  | _ :: _, [] => none
  | p :: ps, c :: cs => if p = c then matchLit ps cs else none

/-- Case-insensitive (ASCII) literal match at the head. -/
def matchLitCI : List Char → List Char → Option (List Char)
  | [], l => some l
  | _ :: _, [] => none
  | p :: ps, c :: cs => if p.toLower = c.toLower then matchLitCI ps cs else none

/-- Does p hold at some suffix position of the list (re.search over positions,
including the position at the end of the string)? -/
def anySuffix (p : List Char → Bool) : List Char → Bool
  | [] => p []
  | c :: cs => p (c :: cs) || anySuffix p cs

/-- First suffix position (leftmost) at which f yields a value. -/
def findFirstSuffix {α : Type} (f : List Char → Option α) : List Char → Option α
  | [] => f []
  | c :: cs =>
    match f (c :: cs) with
    | some v => some v
    | none => findFirstSuffix f cs

/-- Does p hold at the start of some line (re.MULTILINE anchor positions:
the start of the string and every position following a newline)? -/
def anyLineStartAux (p : List Char → Bool) : List Char → Bool
  | [] => false
  | c :: cs => (c = '\n' && p cs) || anyLineStartAux p cs

def anyLineStart (p : List Char → Bool) (l : List Char) : Bool :=
  p l || anyLineStartAux p l

/-- List ends with the given suffix. -/
def listEndsWith (l suffix : List Char) : Bool :=
  decide (suffix.reverse <+: l.reverse)

/-- Contains the literal as a substring (re.search for a literal pattern). -/
def containsLit (pat : String) (l : List Char) : Bool :=
  anySuffix (fun l2 => (matchLit pat.data l2).isSome) l

/-! ### PII service (app/services/pii_service.py)

Phase-1 regex redaction of IPv4 addresses, the kernel-log bypass, and the
two-phase redact_pii driver.  The Presidio analyzer and anonymizer are
external collaborators, passed in as fallible functions. -/

/-- One octet group of IP_PORT_PATTERN: d1-3 followed by a literal dot.
Returns the rest after the dot.  Backtracking is not needed: a digit run
longer than 3 can never be followed by the required dot under any split. -/
def matchOctetDot (l : List Char) : Option (List Char) :=
  let (d, r) := takeDigits l
  if 1 ≤ d.length ∧ d.length ≤ 3 then
    match r with
    | '.' :: r2 => some r2
    | _ => none
  else none

/-- Word boundary holding right after a digit: next char non-word or end. -/
def nonWordAhead : List Char → Bool
  | [] => true
  | c :: _ => !isWordChar c

/-- Final octet of IP_PORT_PATTERN with the optional port group and the
trailing word boundary.  Returns (hasPort, rest).  Mirrors the greedy
semantics of (backslash-d 1-3)(: backslash-d 1-5)? with a trailing word
boundary: the port group is tried first; if it cannot complete, the
boundary right after the octet is the colon, which always satisfies it. -/
def matchIpTail (l : List Char) : Option (Bool × List Char) :=
  let (d, r) := takeDigits l
  if 1 ≤ d.length ∧ d.length ≤ 3 then
    match r with
    | ':' :: r2 =>
      let (p, r3) := takeDigits r2
      if 1 ≤ p.length ∧ p.length ≤ 5 ∧ nonWordAhead r3 then some (true, r3)
      else some (false, ':' :: r2)
    | _ => if nonWordAhead r then some (false, r) else none
  else none

/-- Match of the full IP_PORT_PATTERN body at the current position
(the caller checks the leading word boundary).  Returns (hasPort, rest). -/
def matchIp (l : List Char) : Option (Bool × List Char) := do
  let r1 ← matchOctetDot l
  let r2 ← matchOctetDot r1
  let r3 ← matchOctetDot r2
  matchIpTail r3

/-- Left-to-right scan of IP_PORT_PATTERN.sub with the replace_ip callback:
a match with a port becomes "[IP]:[PORT]", one without becomes "[IP]";
the count of matches is accumulated.  prevWord tracks whether the previous
character of the original text is a word character (for the leading word
boundary; every match starts with a digit). -/
def redactIpGo : Nat → Bool → List Char → List Char × Nat
  | 0, _, l => (l, 0)
  | _ + 1, _, [] => ([], 0)
  | fuel + 1, prevWord, c :: cs =>
    match if prevWord then none else matchIp (c :: cs) with
    | some (hasPort, rest) =>
      let rep := if hasPort then "[IP]:[PORT]".data else "[IP]".data
      let (out, n) := redactIpGo fuel true rest
      (rep ++ out, n + 1)
    | none =>
      let (out, n) := redactIpGo fuel (isWordChar c) cs
      (c :: out, n)

/-- PIIService._redact_ip_addresses: replace IPv4 (+ optional port) patterns,
returning the redacted text and the number of replacements. -/
def redact_ip_addresses (text : String) : String × Nat :=
  let (out, n) := redactIpGo text.data.length false text.data
  (String.mk out, n)

/-- Kernel-log indicator 1: "kernel:" then optional whitespace then a
left bracket (case-insensitive). -/
def kernelIndicatorA (l : List Char) : Bool :=
  match matchLitCI "kernel:".data l with
  | some r =>
    let (_, r2) := takeWhileSplit pyIsSpace r
    match r2 with
    | '[' :: _ => true
    | _ => false
  | none => false

/-- Kernel-log indicator 2: bracketed monotonic timestamp, a left bracket,
optional whitespace, digits, a dot, digits, a right bracket. -/
def kernelIndicatorB (l : List Char) : Bool :=
  match l with
  | '[' :: r =>
    let (_, r2) := takeWhileSplit pyIsSpace r
    let (d1, r3) := takeDigits r2
    if d1.length = 0 then false
    else
      match r3 with
      | '.' :: r4 =>
        let (d2, r5) := takeDigits r4
        if d2.length = 0 then false
        else
          match r5 with
          | ']' :: _ => true
          | _ => false
      | _ => false
  | _ => false

/-- Kernel-log indicator 3: pid=, uid= or gid= followed by at least one
digit (case-insensitive). -/
def kernelIndicatorC (l : List Char) : Bool :=
  ["pid=", "uid=", "gid="].any fun pat =>
    match matchLitCI pat.data l with
    | some (c :: _) => c.isDigit
    | _ => false

/-- PIIService._is_kernel_log: any of the kernel/syslog indicator patterns
occurs anywhere in the text. -/
def is_kernel_log (text : String) : Bool :=
  anySuffix (fun l => kernelIndicatorA l || kernelIndicatorB l || kernelIndicatorC l) text.data

/-- A Presidio RecognizerResult: entity type, span, confidence score. -/
structure AnalyzerResult where
  entity_type : String
  start : Nat
  stop : Nat
  score : ℚ
deriving DecidableEq

def EXCLUDED_ENTITY_TYPES : List String :=
  ["US_DRIVER_LICENSE", "DATE_TIME", "URL", "PERSON"]

def PII_CONFIDENCE_THRESHOLD : ℚ := 7/10

/-- Increment the count for a key in an insertion-ordered count map
(Python dict semantics). -/
def addCount : List (String × Nat) → String → List (String × Nat)
  | [], t => [(t, 1)]
  | (k, n) :: rest, t =>
    if k = t then (k, n + 1) :: rest else (k, n) :: addCount rest t

/-- PIIService.redact_pii.  Phase 1 always redacts IP addresses; kernel logs
bypass phase 2; the Presidio analyzer and anonymizer are external and may
fail, in which case the phase-1 result is returned unchanged. -/
def redact_pii
    (analyze : String → Except Unit (List AnalyzerResult))
    (anonymize : String → List AnalyzerResult → Except Unit String)
    (text : String) : String × List (String × Nat) :=
  let p := redact_ip_addresses text
  let t1 := p.1
  let entity_summary : List (String × Nat) :=
    if 0 < p.2 then [("IP_ADDRESS", p.2)] else []
  if is_kernel_log t1 then (t1, entity_summary)
  else
    match analyze t1 with
    | .error _ => (t1, entity_summary)
    | .ok analyzer_results =>
      if analyzer_results = [] then (t1, entity_summary)
      else
        let filtered_results := analyzer_results.filter fun r =>
          !(EXCLUDED_ENTITY_TYPES.contains r.entity_type)
            && r.entity_type ≠ "IP_ADDRESS"
            && decide (PII_CONFIDENCE_THRESHOLD ≤ r.score)
        if filtered_results = [] then (t1, entity_summary)
        else
          match anonymize t1 filtered_results with
          | .error _ => (t1, entity_summary)
          | .ok redacted_text =>
            (redacted_text, filtered_results.foldl (fun s r => addCount s r.entity_type) entity_summary)

/-! ### Metadata extractor (app/services/metadata_extractor.py)

Level extraction with its precedence chain: explicit field, metadata,
stack-trace detection, level token at the start of the message, HTTP
status code heuristic, default INFO. -/

/-- Consume exactly n decimal digits. -/
def exactDigits : Nat → List Char → Option (List Char)
  | 0, l => some l
  | n + 1, c :: cs => if c.isDigit then exactDigits n cs else none
  | _ + 1, [] => none

/-- Consume one expected character. -/
def expectChar (e : Char) : List Char → Option (List Char)
  | c :: cs => if c = e then some cs else none
  | [] => none

/-- A level word anchored here with a trailing word boundary. -/
def litWithBoundary (w : String) (l : List Char) : Bool :=
  match matchLit w.data l with
  | some r => nonWordAhead r
  | none => false

/-- The ERROR-class alternation with trailing boundary
(ERROR, CRITICAL or FATAL; longer alternatives rescue the boundary). -/
def errorWordB (l : List Char) : Bool :=
  litWithBoundary "ERROR" l || litWithBoundary "CRITICAL" l || litWithBoundary "FATAL" l

def warnWordB (l : List Char) : Bool :=
  litWithBoundary "WARN" l || litWithBoundary "WARNING" l

/-- LEVEL_START_PATTERNS entries 17-20: an ISO-like timestamp prefix,
then any run of non-word characters, then a level word with a boundary.
Input is the uppercased message. -/
def matchTsLevel (u : List Char) : Option String := do
  let r1 ← exactDigits 4 u
  let r2 ← expectChar '-' r1
  let r3 ← exactDigits 2 r2
  let r4 ← expectChar '-' r3
  let r5 ← exactDigits 2 r4
  let r6 ← match r5 with
    | c :: cs => if c = 'T' ∨ c = ' ' then some cs else none
    | [] => none
  let r7 ← exactDigits 2 r6
  let r8 ← expectChar ':' r7
  let r9 ← exactDigits 2 r8
  let r10 ← expectChar ':' r9
  let r11 ← exactDigits 2 r10
  let r12 := (takeWhileSplit (fun c => !isWordChar c) r11).2
  if errorWordB r12 then some "ERROR"
  else if warnWordB r12 then some "WARN"
  else if litWithBoundary "INFO" r12 then some "INFO"
  else if litWithBoundary "DEBUG" r12 then some "DEBUG"
  else none

/-- Level word, at least one whitespace, a dash, at least one whitespace
(LEVEL_START_PATTERNS entries 13-16, Log4j style). -/
def matchDashLevel (w : String) (u : List Char) : Bool :=
  match matchLit w.data u with
  | some r =>
    let (sp, r2) := takeWhileSplit pyIsSpace r
    if sp.length = 0 then false
    else
      match r2 with
      | '-' :: r3 =>
        match r3 with
        | c :: _ => pyIsSpace c
        | [] => false
      | _ => false
  | none => false

/-- Level word followed by a colon and a whitespace character
(LEVEL_START_PATTERNS entries 5-8, Uvicorn style). -/
def matchColonSpaceLevel (w : String) (u : List Char) : Bool :=
  match matchLit (w ++ ":").data u with
  | some (c :: _) => pyIsSpace c
  | _ => false

def startsWithLit (w : String) (u : List Char) : Bool :=
  (matchLit w.data u).isSome

/-- The ordered LEVEL_START_PATTERNS list applied at the start of the
uppercased message; the first matching pattern determines the level. -/
def levelAtStart (u : List Char) : Option String :=
  if startsWithLit "ERROR:" u || startsWithLit "CRITICAL:" u || startsWithLit "FATAL:" u then
    some "ERROR"
  else if startsWithLit "WARN:" u || startsWithLit "WARNING:" u then some "WARN"
  else if startsWithLit "INFO:" u || startsWithLit "INFORMATION:" u then some "INFO"
  else if startsWithLit "DEBUG:" u || startsWithLit "TRACE:" u then some "DEBUG"
  else if matchColonSpaceLevel "ERROR" u || matchColonSpaceLevel "CRITICAL" u
      || matchColonSpaceLevel "FATAL" u then some "ERROR"
  else if matchColonSpaceLevel "WARN" u || matchColonSpaceLevel "WARNING" u then some "WARN"
  else if matchColonSpaceLevel "INFO" u then some "INFO"
  else if matchColonSpaceLevel "DEBUG" u then some "DEBUG"
  else if startsWithLit "[ERROR]" u || startsWithLit "[CRITICAL]" u
      || startsWithLit "[FATAL]" u then some "ERROR"
  else if startsWithLit "[WARN]" u || startsWithLit "[WARNING]" u then some "WARN"
  else if startsWithLit "[INFO]" u || startsWithLit "[INFORMATION]" u then some "INFO"
  else if startsWithLit "[DEBUG]" u || startsWithLit "[TRACE]" u then some "DEBUG"
  else if matchDashLevel "ERROR" u || matchDashLevel "CRITICAL" u
      || matchDashLevel "FATAL" u then some "ERROR"
  else if matchDashLevel "WARN" u || matchDashLevel "WARNING" u then some "WARN"
  else if matchDashLevel "INFO" u then some "INFO"
  else if matchDashLevel "DEBUG" u then some "DEBUG"
  else matchTsLevel u

/-- Identifier-with-dots class used by the traceback patterns. -/
def isIdentDotChar (c : Char) : Bool :=
  c.isAlpha || c.isDigit || c = '_' || c = '.'

/-- Line-start pattern: at least one whitespace, then a Python traceback
frame header File "...", line N. -/
def fileLineAt (l : List Char) : Bool :=
  let (sp, r) := takeWhileSplit pyIsSpace l
  if sp.length = 0 then false
  else
    match matchLit "File \"".data r with
    | some r2 =>
      let (body, r3) := takeWhileSplit (fun c => c ≠ '"') r2
      if body.length = 0 then false
      else
        match matchLit "\", line ".data r3 with
        | some (c :: _) => c.isDigit
        | _ => false
    | none => false

/-- Line-start pattern: an identifier (letters, digits, underscores, dots,
first character a letter or underscore) ending in the given suffix,
immediately followed by a colon - e.g. ValueError: or app.MyException:. -/
def errIdentAt (suffix : String) (l : List Char) : Bool :=
  match l with
  | c :: _ =>
    if c.isAlpha || c = '_' then
      let (run, r) := takeWhileSplit isIdentDotChar l
      listEndsWith run suffix.data && decide (suffix.length < run.length)
        && (match r with
            | ':' :: _ => true
            | _ => false)
    else false
  | [] => false

/-- Search pattern: the literal raise followed by a word run ending in the
given suffix and an opening parenthesis. -/
def raiseAt (suffix : String) (l : List Char) : Bool :=
  match matchLit "raise ".data l with
  | some r =>
    let (run, r2) := takeWhileSplit isWordChar r
    listEndsWith run suffix.data && decide (suffix.length < run.length)
      && (match r2 with
          | '(' :: _ => true
          | _ => false)
  | none => false

/-- MetadataExtractor._is_stack_trace: any of the STACK_TRACE_PATTERNS
occurs in the (original-case) message. -/
def is_stack_trace (message : String) : Bool :=
  let l := message.data
  containsLit "Traceback (most recent call last):" l
  || anyLineStart fileLineAt l
  || anyLineStart (errIdentAt "Error") l
  || anyLineStart (errIdentAt "Exception") l
  || containsLit "The above exception was the direct cause" l
  || containsLit "During handling of the above exception" l
  || anySuffix (raiseAt "Error") l
  || anySuffix (raiseAt "Exception") l

/-- HTTP_STATUS_PATTERN at one position: literal HTTP/, a nonempty run of
digits and dots, a double quote, at least one whitespace character, and a
three-digit status code (the captured value). -/
def httpStatusAt (l : List Char) : Option Nat := do
  let r1 ← matchLit "HTTP/".data l
  let (run, r2) := takeWhileSplit (fun c => c.isDigit || c = '.') r1
  if run.length = 0 then none
  else
    let r3 ← expectChar '"' r2
    let (sp, r4) := takeWhileSplit pyIsSpace r3
    if sp.length = 0 then none
    else
      match r4 with
      | d1 :: d2 :: d3 :: _ =>
        if d1.isDigit && d2.isDigit && d3.isDigit then
          some ((d1.toNat - 48) * 100 + (d2.toNat - 48) * 10 + (d3.toNat - 48))
        else none
      | _ => none

/-- MetadataExtractor._extract_level_from_http_status: leftmost status-code
match in the message, mapped through the threshold heuristic. -/
def extract_level_from_http_status (message : String) : Option String :=
  match findFirstSuffix httpStatusAt message.data with
  | some status_code =>
    some (if 500 ≤ status_code then "ERROR"
          else if 400 ≤ status_code then "WARN"
          else if 200 ≤ status_code then "INFO"
          else "DEBUG")
  | none => none

def VALID_LEVELS : List String :=
  ["DEBUG", "INFO", "WARN", "WARNING", "ERROR", "CRITICAL", "FATAL"]

/-- WARNING is canonicalised to WARN; other valid levels pass through. -/
def canonLevel (lu : String) : String :=
  if lu = "WARNING" then "WARN" else lu

/-- The explicit level parameter, accepted only when non-empty (Python
truthiness) and a recognised level name after uppercasing. -/
def explicitLevel : Option String → Option String
  | some l =>
    if l ≠ "" then
      let lu := pyUpper l
      if lu ∈ VALID_LEVELS then some (canonLevel lu) else none
    else none
  | none => none

/-- The level key of the metadata map, accepted when present with a
recognised level name after uppercasing; a present-but-invalid value falls
through to the later stages of the chain. -/
def metadataLevel (metadata : List (String × String)) : Option String :=
  match metadata.lookup "level" with
  | some v =>
    let mu := pyUpper v
    if mu ∈ VALID_LEVELS then some (canonLevel mu) else none
  | none => none

/-- MetadataExtractor.extract_level: the full precedence chain. -/
def extract_level (message : String) (metadata : List (String × String))
    (level : Option String) : String :=
  match explicitLevel level with
  | some r => r
  | none =>
    match metadataLevel metadata with
    | some r => r
    | none =>
      if is_stack_trace message then "ERROR"
      else
        match levelAtStart (pyUpper message).data with
        | some r => r
        | none =>
          match extract_level_from_http_status message with
          | some http_level => http_level
          | none => "INFO"

/-! ### Embedding service (app/services/embedding_service.py)

Budget enforcement, caching, retry/backoff.  The OpenAI client is an
external collaborator, modelled as a per-attempt outcome function; the
SHA-256 content hash is an external pure function passed as a parameter;
costs and delays are rationals; dates are abstract day numbers. -/

/-- OpenAI text-embedding-3-small pricing: 0.02 dollars per 1M tokens. -/
def EMBEDDING_COST_PER_1M_TOKENS : ℚ := 2/100

/-- Configuration and constants fixed at service construction. -/
structure EmbeddingConfig where
  hasClient : Bool
  daily_budget : Option ℚ
  max_retries : Nat := 3
  retry_delay : ℚ := 1
  max_retry_delay : ℚ := 60
  rate_limit_retry_delay : ℚ := 60
  max_batch_size : Nat := 2048

/-- Result dictionary of generate_embedding (timestamps as abstract Nat). -/
structure EmbResult where
  embedding : List ℚ
  model : String
  timestamp : Nat
  cost_usd : ℚ
  tokens : Nat
  cached : Bool
deriving DecidableEq

/-- The distinguished budget-exceeded error with its payload. -/
structure BudgetExceededError where
  daily_spending : ℚ
  budget : ℚ
deriving DecidableEq

/-- Mutable service state: the per-date spending map, the tracked current
date, and the embedding cache keyed by content hash. -/
structure EmbeddingState where
  dailySpending : List (Nat × ℚ)
  currentDate : Nat
  cache : List (String × EmbResult)
deriving DecidableEq

/-- Python dict assignment: replace the first binding or append. -/
def dictInsertNat (m : List (Nat × ℚ)) (k : Nat) (v : ℚ) : List (Nat × ℚ) :=
  match m with
  | [] => [(k, v)]
  | (k2, v2) :: rest =>
    if k2 = k then (k, v) :: rest else (k2, v2) :: dictInsertNat rest k v

/-- Python dict assignment for the embedding cache. -/
def cacheInsert (m : List (String × EmbResult)) (k : String) (v : EmbResult) :
    List (String × EmbResult) :=
  match m with
  | [] => [(k, v)]
  | (k2, v2) :: rest =>
    if k2 = k then (k, v) :: rest else (k2, v2) :: cacheInsert rest k v

/-- EmbeddingService._calculate_cost. -/
def calculate_cost (tokens : Nat) : ℚ :=
  ((tokens : ℚ) / 1000000) * EMBEDDING_COST_PER_1M_TOKENS

/-- EmbeddingService._get_current_daily_spending: resets the counter when
the date has rolled over; returns the spending and the updated state. -/
def get_current_daily_spending (today : Nat) (st : EmbeddingState) :
    ℚ × EmbeddingState :=
  if today ≠ st.currentDate then
    let st1 : EmbeddingState :=
      { st with currentDate := today, dailySpending := dictInsertNat st.dailySpending today 0 }
    ((st1.dailySpending.lookup today).getD 0, st1)
  else
    ((st.dailySpending.lookup today).getD 0, st)

/-- EmbeddingService._record_spending. -/
def record_spending (today : Nat) (cost : ℚ) (st : EmbeddingState) : EmbeddingState :=
  let st1 : EmbeddingState :=
    if today ≠ st.currentDate then
      { st with currentDate := today, dailySpending := dictInsertNat st.dailySpending today 0 }
    else st
  let current := (st1.dailySpending.lookup today).getD 0
  { st1 with dailySpending := dictInsertNat st1.dailySpending today (current + cost) }

/-- EmbeddingService._check_budget: raises BudgetExceededError when the
projected spending strictly exceeds the configured daily budget; a missing
budget allows everything.  The state is returned alongside because the
spending getter may reset the counter on date rollover. -/
def check_budget (cfg : EmbeddingConfig) (today : Nat) (estimated_cost : ℚ)
    (st : EmbeddingState) : Except BudgetExceededError Unit × EmbeddingState :=
  match cfg.daily_budget with
  | none => (.ok (), st)
  | some budget =>
    let (current_spending, st1) := get_current_daily_spending today st
    if budget < current_spending + estimated_cost then
      (.error ⟨current_spending, budget⟩, st1)
    else (.ok (), st1)

/-- Outcome of one attempt of the remote call as seen by
_retry_with_backoff: a value, a rate-limit error carrying the optional
parsed retry-after header, or any other exception. -/
inductive RetryOutcome (α : Type) where
  | ok (val : α)
  | rateLimited (retryAfter : Option ℚ)
  | failed
deriving DecidableEq

/-- EmbeddingService._handle_rate_limit: returns whether to retry, and the
sleep duration when retrying.  The duration multiplies the retry-after
hint (or the fixed rate-limit base delay) by two to the power of
(attempt - 1) and caps the product at max_retry_delay. -/
def handle_rate_limit (cfg : EmbeddingConfig) (attempt : Nat) (retryAfter : Option ℚ) :
    Bool × Option ℚ :=
  if cfg.max_retries ≤ attempt then (false, none)
  else
    let retry_after := retryAfter.getD cfg.rate_limit_retry_delay
    (true, some (min (retry_after * (2 : ℚ) ^ ((attempt : ℤ) - 1)) cfg.max_retry_delay))

/-- EmbeddingService._retry_with_backoff, with an attempt-indexed call
outcome.  Returns the result (none when all attempts failed) and the
number of remote invocations actually issued. -/
def retryGo {α : Type} (cfg : EmbeddingConfig) (call : Nat → RetryOutcome α)
    (attempt calls : Nat) : Option α × Nat :=
  if _h : attempt < cfg.max_retries then
    match call attempt with
    | .ok v => (some v, calls + 1)
    | .rateLimited ra =>
      if (handle_rate_limit cfg (attempt + 1) ra).1 then
        retryGo cfg call (attempt + 1) (calls + 1)
      else (none, calls + 1)
    | .failed =>
      if attempt < cfg.max_retries - 1 then
        retryGo cfg call (attempt + 1) (calls + 1)
      else (none, calls + 1)
  else (none, calls)
termination_by cfg.max_retries - attempt

def retry_with_backoff {α : Type} (cfg : EmbeddingConfig)
    (call : Nat → RetryOutcome α) : Option α × Nat :=
  retryGo cfg call 0 0

/-- Remote response for a single-text embedding call: the first data
entry's vector and the optional usage token count. -/
structure SingleResponse where
  embedding : List ℚ
  usage : Option Nat
deriving DecidableEq

/-- Overall outcome of generate_embedding: its return value (or the
propagated budget error), the post-call service state, and the number of
remote invocations issued. -/
structure GenOutcome where
  result : Except BudgetExceededError (Option EmbResult)
  state : EmbeddingState
  remoteCalls : Nat

/-- EmbeddingService.generate_embedding. -/
def generate_embedding (cfg : EmbeddingConfig)
    (call : Nat → RetryOutcome SingleResponse)
    (hash : String → String) (now today : Nat)
    (text : String) (use_cache : Bool) (st : EmbeddingState) : GenOutcome :=
  if cfg.hasClient = false then ⟨.ok none, st, 0⟩
  else
    match if use_cache then st.cache.lookup (hash text) else none with
    | some cached_result =>
      ⟨.ok (some { cached_result with timestamp := now, cached := true }), st, 0⟩
    | none =>
      let estimated_tokens := text.length / 4
      let estimated_cost := calculate_cost estimated_tokens
      match check_budget cfg today estimated_cost st with
      | (.error e, st1) => ⟨.error e, st1, 0⟩
      | (.ok (), st1) =>
        match retry_with_backoff cfg call with
        | (none, n) => ⟨.ok none, st1, n⟩
        | (some response, n) =>
          let tokens := response.usage.getD 0
          let cost := calculate_cost tokens
          let st2 := record_spending today cost st1
          let result : EmbResult :=
            { embedding := response.embedding, model := "text-embedding-3-small",
              timestamp := now, cost_usd := cost, tokens := tokens, cached := false }
          let st3 :=
            if use_cache then { st2 with cache := cacheInsert st2.cache (hash text) result }
            else st2
          ⟨.ok (some result), st3, n⟩

/-- One entry of a batched remote response, tagged by request-local index. -/
structure BatchItem where
  index : Nat
  embedding : List ℚ
deriving DecidableEq

/-- Remote response for a batched embedding call. -/
structure BatchResponse where
  data : List BatchItem
  usage : Option Nat
deriving DecidableEq

/-- Overall outcome of generate_embeddings_batch. -/
structure BatchOutcome where
  result : Except BudgetExceededError (List (Option EmbResult))
  state : EmbeddingState
  remoteCalls : Nat

/-- The uncached (index, text) pairs of a batch request, in input order. -/
def uncachedPairs (hash : String → String) (texts : List String)
    (use_cache : Bool) (st : EmbeddingState) : List (Nat × String) :=
  if use_cache then
    texts.enum.filter fun p => (st.cache.lookup (hash p.2)).isNone
  else texts.enum

/-- The summed per-text length-derived cost estimate of a batch request. -/
def batchEstimatedCost (uncached : List (Nat × String)) : ℚ :=
  calculate_cost (uncached.foldl (fun acc p => acc + p.2.length / 4) 0)

/-- Split a list into chunks of at most n elements (the batch splitting
loop of generate_embeddings_batch); fuel-driven structural recursion. -/
def chunksOfGo {α : Type} (n : Nat) : Nat → List α → List (List α)
  | 0, l => [l]
  | _ + 1, [] => []
  | fuel + 1, x :: xs => ((x :: xs).take n) :: chunksOfGo n fuel ((x :: xs).drop n)

def chunksOf {α : Type} (n : Nat) (l : List α) : List (List α) :=
  chunksOfGo n l.length l

/-- Python dict comprehension over response items (later duplicates win),
then .get(local_idx). -/
def batchEmbeddingFor (resp : BatchResponse) (local_idx : Nat) : Option (List ℚ) :=
  (resp.data.reverse.find? (fun item => item.index = local_idx)).map (·.embedding)

/-- Set one position of the results list. -/
def setResult (results : List (Option EmbResult)) (i : Nat) (v : Option EmbResult) :
    List (Option EmbResult) :=
  results.set i v

/-- The per-chunk result distribution loop of generate_embeddings_batch:
each batch index receives its embedding (when present and non-empty, per
Python truthiness) with per-item amortised cost and tokens, and the cache
is updated for it. -/
def distributeChunk (hash : String → String) (now : Nat) (use_cache : Bool)
    (resp : BatchResponse) (cost_per_item : ℚ) (tokens_per_item : Nat)
    (chunk : List (Nat × String)) (acc : List (Option EmbResult) × EmbeddingState) :
    List (Option EmbResult) × EmbeddingState :=
  chunk.enum.foldl
    (fun (acc2 : List (Option EmbResult) × EmbeddingState) p =>
      let local_idx := p.1
      let global_idx := p.2.1
      let text := p.2.2
      match batchEmbeddingFor resp local_idx with
      | some emb =>
        if emb ≠ [] then
          let result : EmbResult :=
            { embedding := emb, model := "text-embedding-3-small", timestamp := now,
              cost_usd := cost_per_item, tokens := tokens_per_item, cached := false }
          let results2 := setResult acc2.1 global_idx (some result)
          let st2 :=
            if use_cache then
              { acc2.2 with cache := cacheInsert acc2.2.cache (hash text) result }
            else acc2.2
          (results2, st2)
        else acc2
      | none => acc2)
    acc

/-- The chunk-processing loop of generate_embeddings_batch. -/
def processChunks (cfg : EmbeddingConfig)
    (callB : List String → Nat → RetryOutcome BatchResponse)
    (hash : String → String) (now today : Nat) (use_cache : Bool)
    (chunks : List (List (Nat × String)))
    (results : List (Option EmbResult)) (st : EmbeddingState) (calls : Nat) :
    List (Option EmbResult) × EmbeddingState × Nat :=
  match chunks with
  | [] => (results, st, calls)
  | chunk :: rest =>
    let batch_texts := chunk.map (·.2)
    match retry_with_backoff cfg (callB batch_texts) with
    | (none, n) => processChunks cfg callB hash now today use_cache rest results st (calls + n)
    | (some resp, n) =>
      let total_tokens := resp.usage.getD 0
      let cost := calculate_cost total_tokens
      let st1 := record_spending today cost st
      let cost_per_item := if batch_texts.length = 0 then 0 else cost / batch_texts.length
      let tokens_per_item := if batch_texts.length = 0 then 0 else total_tokens / batch_texts.length
      let (results2, st2) :=
        distributeChunk hash now use_cache resp cost_per_item tokens_per_item chunk (results, st1)
      processChunks cfg callB hash now today use_cache rest results2 st2 (calls + n)

/-- EmbeddingService.generate_embeddings_batch. -/
def generate_embeddings_batch (cfg : EmbeddingConfig)
    (callB : List String → Nat → RetryOutcome BatchResponse)
    (hash : String → String) (now today : Nat)
    (texts : List String) (use_cache : Bool) (st : EmbeddingState) : BatchOutcome :=
  if cfg.hasClient = false then ⟨.ok (texts.map fun _ => none), st, 0⟩
  else if texts = [] then ⟨.ok [], st, 0⟩
  else
    let results0 : List (Option EmbResult) :=
      if use_cache then
        texts.map fun t =>
          match st.cache.lookup (hash t) with
          | some cached_result => some { cached_result with timestamp := now, cached := true }
          | none => none
      else texts.map fun _ => none
    let uncached := uncachedPairs hash texts use_cache st
    if uncached = [] then ⟨.ok results0, st, 0⟩
    else
      let estimated_cost := batchEstimatedCost uncached
      match check_budget cfg today estimated_cost st with
      | (.error e, st1) => ⟨.error e, st1, 0⟩
      | (.ok (), st1) =>
        let (results2, st2, calls) :=
          processChunks cfg callB hash now today use_cache
            (chunksOf cfg.max_batch_size uncached) results0 st1 0
        ⟨.ok results2, st2, calls⟩

/-! ### Statistical anomaly detection (app/services/anomaly_detection_service.py)

The per-point flag decision of the three statistical methods.  The
numeric inputs produced by numpy/sklearn (novelty scores, medians,
z-scores, centroid distances, quartiles) are taken as rational inputs;
the level-weighted gating logic is translated exactly. -/

def LOG_LEVEL_ANOMALY_WEIGHTS : List (String × ℚ) :=
  [("ERROR", 1), ("WARN", 4/5), ("WARNING", 4/5), ("INFO", 3/10),
   ("DEBUG", 1/5), ("TRACE", 1/10)]

def DEFAULT_LEVEL_WEIGHT : ℚ := 1/2

/-- log_level_map.get(log_id, "INFO").upper() followed by the weight
lookup with its default. -/
def point_level_weight (log_level : Option String) : ℚ :=
  (LOG_LEVEL_ANOMALY_WEIGHTS.lookup (pyUpper (log_level.getD "INFO"))).getD
    DEFAULT_LEVEL_WEIGHT

/-- Per-point body of detect_with_zscore: the statistical test is
z_score > threshold; the flag additionally requires weight at least 0.8 or
z_score above threshold / weight (infinity when the weight is not
positive).  Returns (is_anomaly, stored anomaly_score). -/
def zscore_point (threshold : ℚ) (log_level : Option String) (z_score : ℚ) :
    Bool × ℚ :=
  let level_weight := point_level_weight log_level
  let statistical_anomaly := decide (threshold < z_score)
  let is_anomaly :=
    statistical_anomaly
      && (decide ((4 : ℚ)/5 ≤ level_weight)
          || (decide ((0 : ℚ) < level_weight)
              && decide (threshold / level_weight < z_score)))
  (is_anomaly, z_score)

/-- Per-point body of detect_with_isolation_forest: prediction -1 is the
statistical test; the stored score is the sign-flipped raw score; the
baseline is the population median of the sign-flipped scores. -/
def isolation_forest_point (median_score : ℚ) (log_level : Option String)
    (prediction : Int) (score : ℚ) : Bool × ℚ :=
  let normalized_score := -score
  let level_weight := point_level_weight log_level
  let statistical_anomaly := decide (prediction = -1)
  let is_anomaly :=
    statistical_anomaly
      && (decide ((4 : ℚ)/5 ≤ level_weight)
          || (decide ((0 : ℚ) < level_weight)
              && decide (median_score / level_weight < normalized_score)))
  (is_anomaly, normalized_score)

/-- Per-point body of detect_with_iqr: the statistical test is falling
outside the multiplier-widened quartile bounds; the score is the distance
from the violated bound in IQR units; the flag gate uses baseline 1. -/
def iqr_point (multiplier q1 q3 : ℚ) (log_level : Option String)
    (distance : ℚ) : Bool × ℚ :=
  let iqr := q3 - q1
  let lower_bound := q1 - multiplier * iqr
  let upper_bound := q3 + multiplier * iqr
  let statistical_anomaly := decide (distance < lower_bound) || decide (upper_bound < distance)
  let score : ℚ :=
    if distance < lower_bound then
      (if 0 < iqr then (lower_bound - distance) / iqr else 0)
    else if upper_bound < distance then
      (if 0 < iqr then (distance - upper_bound) / iqr else 0)
    else 0
  let level_weight := point_level_weight log_level
  let is_anomaly :=
    statistical_anomaly
      && (decide ((4 : ℚ)/5 ≤ level_weight)
          || (decide ((0 : ℚ) < level_weight)
              && decide (1 / level_weight < score)))
  (is_anomaly, score)

/-! ### Ingestion service (app/services/ingestion_service.py)

The batch-flush predicate of the priority queue. -/

/-- IngestionService._should_process_batch as a function of the queue
size, the configured batch size and flush timeout, the current time and
the time of the last flush. -/
def should_process_batch (embedding_batch_size : Nat)
    (embedding_batch_timeout_seconds : ℚ)
    (queue_size : Nat) (now last_batch_time : ℚ) : Bool :=
  if queue_size = 0 then false
  else if embedding_batch_size ≤ queue_size then true
  else decide (embedding_batch_timeout_seconds ≤ now - last_batch_time)

/-! ### Clustering assignment storage and Tier-2 reasoning
(app/services/clustering_service.py, storage_service.py,
llm_reasoning_service.py)

AnomalyResult rows as an association list keyed by log_entry_id; UUID
parsing of the string keys is an external parameter. -/

/-- One AnomalyResult row. -/
structure AnomalyRow where
  log_entry_id : String
  anomaly_score : ℚ
  is_anomaly : Bool
  detection_method : String
  cluster_id : Option Int
  llm_reasoning : Option String
deriving DecidableEq

/-- db.query(AnomalyResult).filter(log_entry_id == id).first(). -/
def findRow (rows : List AnomalyRow) (id : String) : Option AnomalyRow :=
  rows.find? fun r => r.log_entry_id = id

/-- In-place mutation of the first row with the given id. -/
def updateFirstRow (id : String) (f : AnomalyRow → AnomalyRow) :
    List AnomalyRow → List AnomalyRow
  | [] => []
  | r :: rs =>
    if r.log_entry_id = id then f r :: rs else r :: updateFirstRow id f rs

/-- One iteration of ClusteringService._store_cluster_assignments: an
unparsable key is skipped; an existing row gets only its cluster_id and
detection_method updated; a missing row is created with score 0, the
outlier flag derived from the -1 sentinel, and no reasoning. -/
def store_one_assignment (parseUuid : String → Option String)
    (rows : List AnomalyRow) (asg : String × Int) : List AnomalyRow :=
  match parseUuid asg.1 with
  | none => rows
  | some log_id =>
    match findRow rows log_id with
    | some _ =>
      updateFirstRow log_id
        (fun r => { r with cluster_id := some asg.2, detection_method := "HDBSCAN" }) rows
    | none =>
      rows ++ [{ log_entry_id := log_id, anomaly_score := 0,
                 is_anomaly := asg.2 = -1, detection_method := "HDBSCAN",
                 cluster_id := some asg.2, llm_reasoning := none }]

/-- ClusteringService._store_cluster_assignments over the whole
assignment map. -/
def store_cluster_assignments (parseUuid : String → Option String)
    (cluster_assignments : List (String × Int)) (rows : List AnomalyRow) :
    List AnomalyRow :=
  cluster_assignments.foldl (store_one_assignment parseUuid) rows

/-- The assignments whose keys parse as UUIDs, with parsed keys. -/
def parsedAssignments (parseUuid : String → Option String)
    (cluster_assignments : List (String × Int)) : List (String × Int) :=
  cluster_assignments.filterMap fun p => (parseUuid p.1).map (fun id => (id, p.2))

/-- Parsed result dictionary of LLMReasoningService.detect_anomaly. -/
structure LlmDetection where
  is_anomaly : Bool
  confidence : ℚ
  reasoning : String
deriving DecidableEq

/-- Outcome of the structured chat-completion call inside detect_anomaly:
a successfully parsed JSON object, a JSON parse failure, a rate-limit
error, or any other error. -/
inductive LlmCallOutcome where
  | parsed (is_anomaly : Bool) (confidence : ℚ) (reasoning : String)
  | parseFailure
  | rateLimited
  | failed
deriving DecidableEq

/-- LLMReasoningService.detect_anomaly: only a successfully parsed
structured response produces a result; every failure mode, including a
JSON parse failure, returns None. -/
def detect_anomaly (hasClient : Bool) (outcome : LlmCallOutcome) :
    Option LlmDetection :=
  if hasClient = false then none
  else
    match outcome with
    | .parsed a c r => some ⟨a, c, r⟩
    | .parseFailure => none
    | .rateLimited => none
    | .failed => none

/-- The row update performed by StorageService._run_llm_validation: the
reasoning is stored only when both the row and the detection result are
present; a None detection result leaves the row untouched. -/
def run_llm_validation (llm_result : Option LlmDetection)
    (anomaly_result : Option AnomalyRow) : Option AnomalyRow :=
  match anomaly_result, llm_result with
  | some row, some res => some { row with llm_reasoning := some res.reasoning }
  | _, _ => anomaly_result

/-- The per-outlier row update of
ClusteringService._analyze_outliers_with_llm: enhanced root-cause
reasoning wins; otherwise the detection reasoning; otherwise, when
detection failed, the explanation-only fallback is stored when it
produced text. -/
def outlier_reasoning_update (root_cause_reasoning : Option String)
    (llm_result : Option LlmDetection) (fallback_explanation : Option String)
    (row : AnomalyRow) : AnomalyRow :=
  match root_cause_reasoning with
  | some rc => { row with llm_reasoning := some rc }
  | none =>
    match llm_result with
    | some res => { row with llm_reasoning := some res.reasoning }
    | none =>
      match fallback_explanation with
      | some explanation => { row with llm_reasoning := some explanation }
      | none => row

/-! ## Theorems -/

/-- Every level weight reachable from the fixed weight table or its
default is positive, so the infinity guard of the level-adjusted
threshold never fires. -/
theorem point_level_weight_pos (lvl : Option String) : 0 < point_level_weight lvl := by
  unfold point_level_weight LOG_LEVEL_ANOMALY_WEIGHTS DEFAULT_LEVEL_WEIGHT
  simp only [List.lookup]
  repeat' split <;> norm_num

/-- C9: a batch flush is triggered exactly when the priority queue is
non-empty and either its size has reached the configured batch size or
the configured maximum wait has elapsed since the last flush. -/
theorem should_process_batch_iff (embedding_batch_size : Nat)
    (embedding_batch_timeout_seconds : ℚ) (queue_size : Nat)
    (now last_batch_time : ℚ) :
    should_process_batch embedding_batch_size embedding_batch_timeout_seconds
        queue_size now last_batch_time = true ↔
      (queue_size ≠ 0 ∧
        (embedding_batch_size ≤ queue_size ∨
          embedding_batch_timeout_seconds ≤ now - last_batch_time)) := by
  unfold should_process_batch
  split_ifs with h1 h2 <;> simp_all

/-- C6: at the failing input (a Tier-2 validation whose structured call
fails to parse), detect_anomaly returns none and the batch-processing
validation path stores nothing, leaving the flagged anomaly with no
llm_reasoning; the clustering outlier path, by contrast, stores the
unstructured fallback explanation as the code comments promise. -/
theorem llm_parse_failure_leaves_reasoning_unset :
    detect_anomaly true .parseFailure = none
    ∧ run_llm_validation (detect_anomaly true .parseFailure)
        (some { log_entry_id := "log-1", anomaly_score := 5, is_anomaly := true,
                detection_method := "IsolationForest", cluster_id := none,
                llm_reasoning := none }) =
      some { log_entry_id := "log-1", anomaly_score := 5, is_anomaly := true,
             detection_method := "IsolationForest", cluster_id := none,
             llm_reasoning := none }
    ∧ outlier_reasoning_update none (detect_anomaly true .parseFailure)
        (some "unstructured fallback explanation")
        { log_entry_id := "log-1", anomaly_score := 5, is_anomaly := true,
          detection_method := "IsolationForest", cluster_id := none,
          llm_reasoning := none } =
      { log_entry_id := "log-1", anomaly_score := 5, is_anomaly := true,
        detection_method := "IsolationForest", cluster_id := none,
        llm_reasoning := some "unstructured fallback explanation" } :=
  ⟨rfl, rfl, rfl⟩

/-- C8 counterexample: on the second retry of a rate-limited call with an
advertised retry-after hint of 10 seconds, the code sleeps
min(10 * 2, 60) = 20 seconds, not the hint value min(10, 60) = 10 the
claim prescribes. -/
theorem handle_rate_limit_hint_not_used_verbatim :
    handle_rate_limit { hasClient := true, daily_budget := none } 2 (some 10) =
      (true, some 20)
    ∧ ¬((20 : ℚ) = min (10 : ℚ) 60) := by
  constructor
  · unfold handle_rate_limit
    norm_num [min_def]
  · norm_num [min_def]

/-- C8 amended: for a rate-limit error on 1-based attempt k + 1 that is
retried, the sleep equals the retry-after hint when present (else the
fixed rate-limit base delay) multiplied by 2 to the power of k, capped at
the configured maximum delay; it equals the bare hint only on the first
retry. -/
theorem handle_rate_limit_formula (cfg : EmbeddingConfig) (k : Nat)
    (retryAfter : Option ℚ) (h : k + 1 < cfg.max_retries) :
    handle_rate_limit cfg (k + 1) retryAfter =
      (true, some (min ((retryAfter.getD cfg.rate_limit_retry_delay) * (2 : ℚ) ^ k)
        cfg.max_retry_delay)) := by
  unfold handle_rate_limit
  rw [if_neg (by omega)]
  have hz : ((k + 1 : ℕ) : ℤ) - 1 = (k : ℤ) := by push_cast; ring
  rw [hz, zpow_natCast]

/-- C8 witness: the amended formula instantiated on the first retry with a
hint of 10 seconds under the default configuration. -/
theorem handle_rate_limit_formula_witness :
    0 + 1 < ({ hasClient := true, daily_budget := none } : EmbeddingConfig).max_retries
    ∧ handle_rate_limit { hasClient := true, daily_budget := none } (0 + 1) (some 10) =
      (true, some (min ((10 : ℚ) * (2 : ℚ) ^ (0 : ℕ)) 60)) := by
  refine ⟨by norm_num, ?_⟩
  exact handle_rate_limit_formula { hasClient := true, daily_budget := none } 0 (some 10)
    (by norm_num)

/-- C4: for each of the three statistical methods, the per-point flag is
set if and only if the method's statistical test fires and, in addition,
the level weight is at least 0.8 or the raw score exceeds the baseline
divided by the level weight; consequently, of two points with identical
z-score above the baseline but not above baseline / weight(INFO), the
ERROR point is flagged and the INFO point is not. -/
theorem level_weighted_anomaly_gate :
    (∀ (threshold : ℚ) (lvl : Option String) (z : ℚ),
        ((zscore_point threshold lvl z).1 = true ↔
          (threshold < z ∧ ((4 : ℚ)/5 ≤ point_level_weight lvl ∨
            threshold / point_level_weight lvl < z))))
    ∧ (∀ (median_score : ℚ) (lvl : Option String) (prediction : Int) (score : ℚ),
        ((isolation_forest_point median_score lvl prediction score).1 = true ↔
          (prediction = -1 ∧ ((4 : ℚ)/5 ≤ point_level_weight lvl ∨
            median_score / point_level_weight lvl < -score))))
    ∧ (∀ (multiplier q1 q3 : ℚ) (lvl : Option String) (distance : ℚ),
        ((iqr_point multiplier q1 q3 lvl distance).1 = true ↔
          ((distance < q1 - multiplier * (q3 - q1) ∨ q3 + multiplier * (q3 - q1) < distance)
            ∧ ((4 : ℚ)/5 ≤ point_level_weight lvl ∨
              1 / point_level_weight lvl < (iqr_point multiplier q1 q3 lvl distance).2))))
    ∧ (∀ (threshold z : ℚ), threshold < z → z ≤ threshold / ((3 : ℚ)/10) →
        (zscore_point threshold (some "ERROR") z).1 = true ∧
        (zscore_point threshold (some "INFO") z).1 = false) := by
  have hw : ∀ lvl : Option String, 0 < point_level_weight lvl := point_level_weight_pos
  have hz : ∀ (threshold : ℚ) (lvl : Option String) (z : ℚ),
      ((zscore_point threshold lvl z).1 = true ↔
        (threshold < z ∧ ((4 : ℚ)/5 ≤ point_level_weight lvl ∨
          threshold / point_level_weight lvl < z))) := by
    intro threshold lvl z
    unfold zscore_point
    simp [hw lvl]
  refine ⟨hz, ?_, ?_, ?_⟩
  · intro median_score lvl prediction score
    unfold isolation_forest_point
    simp [hw lvl]
  · intro multiplier q1 q3 lvl distance
    unfold iqr_point
    simp [hw lvl]
  · intro threshold z h1 h2
    have he : point_level_weight (some "ERROR") = 1 := rfl
    have hi : point_level_weight (some "INFO") = 3/10 := rfl
    constructor
    · rw [hz]
      exact ⟨h1, Or.inl (by rw [he]; norm_num)⟩
    · cases hb : (zscore_point threshold (some "INFO") z).1 with
      | false => rfl
      | true =>
        exfalso
        rcases (hz threshold (some "INFO") z).mp hb with ⟨_, hc | hc⟩
        · rw [hi] at hc
          norm_num at hc
        · rw [hi] at hc
          exact absurd hc (not_lt.mpr h2)

/-- C4 witness: with baseline 3 and shared z-score 4 (above the baseline,
below 3 / 0.3 = 10), the ERROR point is flagged and the INFO point is
suppressed. -/
theorem level_weighted_anomaly_gate_witness :
    (3 : ℚ) < 4 ∧ (4 : ℚ) ≤ 3 / ((3 : ℚ)/10)
    ∧ (zscore_point 3 (some "ERROR") 4).1 = true
    ∧ (zscore_point 3 (some "INFO") 4).1 = false := by
  have h := level_weighted_anomaly_gate.2.2.2 3 4 (by norm_num) (by norm_num)
  exact ⟨by norm_num, by norm_num, h.1, h.2⟩

/-- Incrementing one key of a count map leaves every other key alone. -/
theorem lookup_addCount_ne (s : List (String × Nat)) (t k : String) (h : ¬(t = k)) :
    (addCount s t).lookup k = s.lookup k := by
  have hbt : (k == t) = false := beq_eq_false_iff_ne.mpr (fun e => h e.symm)
  induction s with
  | nil => simp [addCount, List.lookup, hbt]
  | cons p rest ih =>
    rcases p with ⟨k2, n⟩
    unfold addCount
    by_cases hk : k2 = t
    · subst hk
      simp [List.lookup, hbt]
    · simp only [if_neg hk, List.lookup]
      cases hkk : k == k2 <;> simp [ih]

/-- Folding count increments for entity types all different from k leaves
the count of k alone. -/
theorem lookup_foldl_addCount (rs : List AnalyzerResult) (s : List (String × Nat))
    (k : String) (h : ∀ r ∈ rs, ¬(r.entity_type = k)) :
    (rs.foldl (fun s2 r => addCount s2 r.entity_type) s).lookup k = s.lookup k := by
  induction rs generalizing s with
  | nil => rfl
  | cons r rest ih =>
    simp only [List.foldl]
    rw [ih _ (fun r2 hr2 => h r2 (List.mem_cons_of_mem _ hr2))]
    exact lookup_addCount_ne s r.entity_type k (h r (List.mem_cons_self _ _))

/-- C7: a failure of the probabilistic phase (the analyzer call, first
conjunct, or the anonymizer call, second conjunct) never propagates:
redact_pii still returns the phase-1 regex-redacted text together with the
entity counts accumulated so far. -/
theorem redact_pii_probabilistic_failure_graceful (text : String) :
    (∀ anonymize : String → List AnalyzerResult → Except Unit String,
        redact_pii (fun _ => Except.error ()) anonymize text =
          ((redact_ip_addresses text).1,
            if 0 < (redact_ip_addresses text).2 then
              [("IP_ADDRESS", (redact_ip_addresses text).2)] else []))
    ∧ (∀ analyze : String → Except Unit (List AnalyzerResult),
        redact_pii analyze (fun _ _ => Except.error ()) text =
          ((redact_ip_addresses text).1,
            if 0 < (redact_ip_addresses text).2 then
              [("IP_ADDRESS", (redact_ip_addresses text).2)] else [])) := by
  constructor
  · intro anonymize
    unfold redact_pii
    by_cases hk : is_kernel_log (redact_ip_addresses text).1 <;> simp [hk]
  · intro analyze
    unfold redact_pii
    by_cases hk : is_kernel_log (redact_ip_addresses text).1
    · simp [hk]
    · simp only [hk, Bool.false_eq_true, if_false]
      cases h : analyze (redact_ip_addresses text).1 with
      | error e => simp
      | ok analyzer_results =>
        simp only
        split_ifs <;> rfl

/-- C1 counterexample: an input holding a well-formed IPv4 address, a
UUID, and a sensitive cloud-service hostname, whose pid= token routes it
through the kernel-log bypass.  Only the IPv4 address is replaced and
counted; the UUID and the hostname survive verbatim in the returned text,
whatever the probabilistic recognizer would have answered. -/
theorem redaction_fixed_patterns_counterexample :
    redact_pii (fun _ => Except.ok []) (fun _ _ => Except.ok "")
        "pid=123 src 10.0.0.5 id 550e8400-e29b-41d4-a716-446655440000 host s3.amazonaws.com"
      = ("pid=123 src [IP] id 550e8400-e29b-41d4-a716-446655440000 host s3.amazonaws.com",
         [("IP_ADDRESS", 1)])
    ∧ containsLit "550e8400-e29b-41d4-a716-446655440000"
        "pid=123 src [IP] id 550e8400-e29b-41d4-a716-446655440000 host s3.amazonaws.com".data
      = true
    ∧ containsLit "s3.amazonaws.com"
        "pid=123 src [IP] id 550e8400-e29b-41d4-a716-446655440000 host s3.amazonaws.com".data
      = true := by
  refine ⟨?_, by decide, by decide⟩
  rfl

/-- C1 amended: the always-on regex phase of redact_pii unconditionally
replaces IPv4 addresses (with optional ports) and reports their count
under IP_ADDRESS, regardless of probabilistic-recognizer behaviour; when
the recognizer is bypassed or its analysis fails, the returned text is
exactly the phase-1 output, so UUIDs and cloud-service hostnames, which
no unconditional pattern covers, are not replaced there. -/
theorem redact_pii_fixed_patterns_amended
    (analyze : String → Except Unit (List AnalyzerResult))
    (anonymize : String → List AnalyzerResult → Except Unit String)
    (text : String) :
    ((redact_pii analyze anonymize text).2.lookup "IP_ADDRESS" =
      if 0 < (redact_ip_addresses text).2 then some (redact_ip_addresses text).2 else none)
    ∧ (is_kernel_log (redact_ip_addresses text).1 = true →
        redact_pii analyze anonymize text =
          ((redact_ip_addresses text).1,
            if 0 < (redact_ip_addresses text).2 then
              [("IP_ADDRESS", (redact_ip_addresses text).2)] else []))
    ∧ (analyze (redact_ip_addresses text).1 = Except.error () →
        redact_pii analyze anonymize text =
          ((redact_ip_addresses text).1,
            if 0 < (redact_ip_addresses text).2 then
              [("IP_ADDRESS", (redact_ip_addresses text).2)] else [])) := by
  refine ⟨?_, ?_, ?_⟩
  · unfold redact_pii
    by_cases hk : is_kernel_log (redact_ip_addresses text).1
    · simp only [hk, if_true]
      split_ifs with hn <;> simp [List.lookup]
    · simp only [hk, Bool.false_eq_true, if_false]
      cases h : analyze (redact_ip_addresses text).1 with
      | error e =>
        split_ifs with hn <;> simp [List.lookup]
      | ok analyzer_results =>
        simp only
        by_cases hres : analyzer_results = []
        · simp only [hres, if_true]
          split_ifs with hn <;> simp [List.lookup]
        · simp only [hres, if_false]
          set filtered := analyzer_results.filter
            (fun r => !(EXCLUDED_ENTITY_TYPES.contains r.entity_type)
              && r.entity_type ≠ "IP_ADDRESS"
              && decide (PII_CONFIDENCE_THRESHOLD ≤ r.score)) with hfil
          by_cases hf : filtered = []
          · simp only [hf, if_true]
            split_ifs with hn <;> simp [List.lookup]
          · simp only [hf, if_false]
            cases ha : anonymize (redact_ip_addresses text).1 filtered with
            | error e =>
              split_ifs with hn <;> simp [List.lookup]
            | ok redacted_text =>
              simp only
              rw [lookup_foldl_addCount]
              · split_ifs with hn <;> simp [List.lookup]
              · intro r hr
                rw [hfil] at hr
                have hmem := List.mem_filter.mp hr
                have hp := hmem.2
                simp only [Bool.and_eq_true, decide_eq_true_eq] at hp
                exact hp.1.2
  · intro hk
    unfold redact_pii
    simp [hk]
  · intro ha
    unfold redact_pii
    by_cases hk : is_kernel_log (redact_ip_addresses text).1
    · simp [hk]
    · simp [hk, ha]

/-- C1 amended, witness: a concrete kernel-log input containing one IPv4
address, instantiated with a failing analyzer. -/
theorem redact_pii_fixed_patterns_amended_witness :
    is_kernel_log (redact_ip_addresses "pid=7 10.0.0.5").1 = true
    ∧ (redact_pii (fun _ => Except.error ()) (fun _ _ => Except.ok "")
        "pid=7 10.0.0.5").2.lookup "IP_ADDRESS" = some 1
    ∧ redact_pii (fun _ => Except.error ()) (fun _ _ => Except.ok "") "pid=7 10.0.0.5"
        = ("pid=7 [IP]", [("IP_ADDRESS", 1)]) := by
  have h := redact_pii_fixed_patterns_amended (fun _ => Except.error ())
    (fun _ _ => Except.ok "") "pid=7 10.0.0.5"
  refine ⟨by decide, ?_, ?_⟩
  · rw [h.1]
    rfl
  · exact (h.2.1 (by decide)).trans (by rfl)

/-- C3: extract_level applies the precedence chain - explicit field, then
metadata, then stack-trace detection forcing ERROR, then a level token at
the start of the message, then the HTTP status heuristic (at least 500
ERROR, at least 400 WARN, at least 200 INFO), then default INFO - and a
level token appearing anywhere later in the body is never consulted: when
every earlier stage declines and neither an anchored start token nor an
HTTP status matches, the result is INFO whatever the body contains. -/
theorem extract_level_precedence :
    (∀ (message : String) (metadata : List (String × String)) (l : String),
        l ≠ "" → pyUpper l ∈ VALID_LEVELS →
        extract_level message metadata (some l) = canonLevel (pyUpper l))
    ∧ (∀ (message : String) (metadata : List (String × String)) (level : Option String)
          (v : String),
        explicitLevel level = none → metadata.lookup "level" = some v →
        pyUpper v ∈ VALID_LEVELS →
        extract_level message metadata level = canonLevel (pyUpper v))
    ∧ (∀ (message : String) (metadata : List (String × String)) (level : Option String),
        explicitLevel level = none → metadataLevel metadata = none →
        is_stack_trace message = true →
        extract_level message metadata level = "ERROR")
    ∧ (∀ (message : String) (metadata : List (String × String)) (level : Option String)
          (r : String),
        explicitLevel level = none → metadataLevel metadata = none →
        is_stack_trace message = false →
        levelAtStart (pyUpper message).data = some r →
        extract_level message metadata level = r)
    ∧ (∀ (message : String) (metadata : List (String × String)) (level : Option String)
          (r : String),
        explicitLevel level = none → metadataLevel metadata = none →
        is_stack_trace message = false →
        levelAtStart (pyUpper message).data = none →
        extract_level_from_http_status message = some r →
        extract_level message metadata level = r)
    ∧ (∀ (message : String) (metadata : List (String × String)) (level : Option String),
        explicitLevel level = none → metadataLevel metadata = none →
        is_stack_trace message = false →
        levelAtStart (pyUpper message).data = none →
        extract_level_from_http_status message = none →
        extract_level message metadata level = "INFO")
    ∧ (∀ (status_code : Nat) (message : String),
        findFirstSuffix httpStatusAt message.data = some status_code →
        extract_level_from_http_status message =
          some (if 500 ≤ status_code then "ERROR"
                else if 400 ≤ status_code then "WARN"
                else if 200 ≤ status_code then "INFO" else "DEBUG")) := by
  refine ⟨?_, ?_, ?_, ?_, ?_, ?_, ?_⟩
  · intro message metadata l h1 h2
    unfold extract_level explicitLevel
    simp [h1, h2]
  · intro message metadata level v h1 h2 h3
    unfold extract_level metadataLevel
    rw [h1, h2]
    simp [h3]
  · intro message metadata level h1 h2 h3
    unfold extract_level
    rw [h1, h2, h3]
    rfl
  · intro message metadata level r h1 h2 h3 h4
    unfold extract_level
    rw [h1, h2, h3, h4]
    rfl
  · intro message metadata level r h1 h2 h3 h4 h5
    unfold extract_level
    rw [h1, h2, h3, h4, h5]
    rfl
  · intro message metadata level h1 h2 h3 h4 h5
    unfold extract_level
    rw [h1, h2, h3, h4, h5]
    rfl
  · intro status_code message h
    unfold extract_level_from_http_status
    rw [h]

/-- C3 witness: the explicit WARN field beats the word error in the body;
a body that merely mentions an error and matches no anchored pattern
yields INFO; stack traces force ERROR; anchored start tokens and HTTP
status codes resolve as specified. -/
theorem extract_level_precedence_witness :
    extract_level "user error occurred" [] (some "WARN") = "WARN"
    ∧ extract_level "user error occurred" [] none = "INFO"
    ∧ extract_level "saw WARN: but not at the start" [] none = "INFO"
    ∧ extract_level "x" [("level", "warning")] none = "WARN"
    ∧ extract_level "ValueError: bad input happened" [] none = "ERROR"
    ∧ extract_level "[WARN] disk low" [] none = "WARN"
    ∧ extract_level "GET /api HTTP/1.1\" 503 99" [] none = "ERROR" := by
  obtain ⟨p1, p2, p3, p4, p5, p6, p7⟩ := extract_level_precedence
  refine ⟨?_, ?_, ?_, ?_, ?_, ?_, ?_⟩
  · exact (p1 "user error occurred" [] "WARN" (by decide) (by decide)).trans (by decide)
  · exact p6 "user error occurred" [] none (by decide) (by decide) (by decide) (by decide)
      (by decide)
  · exact p6 "saw WARN: but not at the start" [] none (by decide) (by decide) (by decide)
      (by decide) (by decide)
  · exact (p2 "x" [("level", "warning")] none "warning" (by decide) (by decide)
      (by decide)).trans (by decide)
  · exact p3 "ValueError: bad input happened" [] none (by decide) (by decide) (by decide)
  · exact p4 "[WARN] disk low" [] none "WARN" (by decide) (by decide) (by decide) (by decide)
  · exact p5 "GET /api HTTP/1.1\" 503 99" [] none "ERROR" (by decide) (by decide) (by decide)
      (by decide) (by decide)

/-- Finding a row in a list extended by one appended row. -/
theorem findRow_append_single (rows : List AnomalyRow) (row : AnomalyRow) (id : String) :
    findRow (rows ++ [row]) id =
      (findRow rows id).or (if row.log_entry_id = id then some row else none) := by
  unfold findRow
  rw [List.find?_append]
  by_cases h : row.log_entry_id = id <;> simp [List.find?, h]

/-- Finding a row after an in-place update of the first row carrying
another id, for an update preserving the id field. -/
theorem findRow_updateFirstRow (rows : List AnomalyRow) (id2 id : String)
    (f : AnomalyRow → AnomalyRow) (hf : ∀ r, (f r).log_entry_id = r.log_entry_id) :
    findRow (updateFirstRow id2 f rows) id =
      if id2 = id then (findRow rows id).map f else findRow rows id := by
  induction rows with
  | nil => simp [findRow, updateFirstRow, List.find?]
  | cons r rest ih =>
    unfold updateFirstRow
    by_cases h2 : r.log_entry_id = id2
    · rw [if_pos h2]
      by_cases hid : id2 = id
      · subst hid
        simp [findRow, List.find?, h2, hf]
      · have hne : ¬(f r).log_entry_id = id := by
          rw [hf, h2]; exact hid
        have hne2 : ¬r.log_entry_id = id := by
          rw [h2]; exact hid
        simp [findRow, List.find?, hne, hne2, hid]
    · rw [if_neg h2]
      by_cases hrid : r.log_entry_id = id
      · have hid : ¬id2 = id := fun he => h2 (he ▸ hrid)
        simp [findRow, List.find?, hrid, hid]
      · unfold findRow at *
        rw [List.find?_cons_of_neg _ (by simpa using hrid),
            List.find?_cons_of_neg _ (by simpa using hrid)]
        exact ih

/-- Equation: an unparsable key is skipped. -/
theorem store_one_assignment_skip (parseUuid : String → Option String)
    (rows : List AnomalyRow) (asg : String × Int)
    (hp : parseUuid asg.1 = none) :
    store_one_assignment parseUuid rows asg = rows := by
  unfold store_one_assignment
  rw [hp]

/-- Equation: an existing row is updated in place. -/
theorem store_one_assignment_update (parseUuid : String → Option String)
    (rows : List AnomalyRow) (asg : String × Int) (id2 : String) (r0 : AnomalyRow)
    (hp : parseUuid asg.1 = some id2) (hfind : findRow rows id2 = some r0) :
    store_one_assignment parseUuid rows asg =
      updateFirstRow id2
        (fun r => { r with cluster_id := some asg.2, detection_method := "HDBSCAN" }) rows := by
  unfold store_one_assignment
  rw [hp]
  dsimp only
  rw [hfind]

/-- Equation: a missing row is freshly created. -/
theorem store_one_assignment_insert (parseUuid : String → Option String)
    (rows : List AnomalyRow) (asg : String × Int) (id2 : String)
    (hp : parseUuid asg.1 = some id2) (hfind : findRow rows id2 = none) :
    store_one_assignment parseUuid rows asg =
      rows ++ [{ log_entry_id := id2, anomaly_score := 0, is_anomaly := asg.2 = -1,
                 detection_method := "HDBSCAN", cluster_id := some asg.2,
                 llm_reasoning := none }] := by
  unfold store_one_assignment
  rw [hp]
  dsimp only
  rw [hfind]

/-- Storing one assignment whose key is unparsable or parses to a
different id neither creates nor modifies the row of id. -/
theorem findRow_store_one_other (parseUuid : String → Option String)
    (rows : List AnomalyRow) (asg : String × Int) (id : String)
    (h : ∀ id2, parseUuid asg.1 = some id2 → id2 ≠ id) :
    findRow (store_one_assignment parseUuid rows asg) id = findRow rows id := by
  cases hp : parseUuid asg.1 with
  | none => rw [store_one_assignment_skip parseUuid rows asg hp]
  | some id2 =>
    have hne : id2 ≠ id := h id2 hp
    cases hfind : findRow rows id2 with
    | some r0 =>
      rw [store_one_assignment_update parseUuid rows asg id2 r0 hp hfind,
          findRow_updateFirstRow rows id2 id
            (fun r => { r with cluster_id := some asg.2, detection_method := "HDBSCAN" })
            (fun r => rfl), if_neg hne]
    | none =>
      rw [store_one_assignment_insert parseUuid rows asg id2 hp hfind,
          findRow_append_single]
      simp [hne]

/-- The head of the parsed-assignments list when the head key parses. -/
theorem parsedAssignments_cons_some (parseUuid : String → Option String)
    (a : String × Int) (rest : List (String × Int)) (id2 : String)
    (hp : parseUuid a.1 = some id2) :
    parsedAssignments parseUuid (a :: rest) =
      (id2, a.2) :: parsedAssignments parseUuid rest := by
  unfold parsedAssignments
  rw [List.filterMap_cons, hp]
  rfl

/-- The parsed-assignments list when the head key does not parse. -/
theorem parsedAssignments_cons_none (parseUuid : String → Option String)
    (a : String × Int) (rest : List (String × Int))
    (hp : parseUuid a.1 = none) :
    parsedAssignments parseUuid (a :: rest) = parsedAssignments parseUuid rest := by
  unfold parsedAssignments
  rw [List.filterMap_cons, hp]
  rfl

/-- Storing assignments none of whose parsed keys is id leaves the row of
id untouched. -/
theorem findRow_store_all_other (parseUuid : String → Option String)
    (asgs : List (String × Int)) :
    ∀ (rows : List AnomalyRow) (id : String),
      (∀ p ∈ parsedAssignments parseUuid asgs, p.1 ≠ id) →
      findRow (store_cluster_assignments parseUuid asgs rows) id = findRow rows id := by
  induction asgs with
  | nil => intro rows id _; rfl
  | cons a rest ih =>
    intro rows id h
    have hstep : findRow (store_one_assignment parseUuid rows a) id = findRow rows id := by
      apply findRow_store_one_other
      intro id2 hp
      refine h (id2, a.2) ?_
      rw [parsedAssignments_cons_some parseUuid a rest id2 hp]
      exact List.mem_cons_self _ _
    have hrest : ∀ p ∈ parsedAssignments parseUuid rest, p.1 ≠ id := by
      intro p hp2
      apply h
      cases hpa : parseUuid a.1 with
      | none => rw [parsedAssignments_cons_none parseUuid a rest hpa]; exact hp2
      | some i =>
        rw [parsedAssignments_cons_some parseUuid a rest i hpa]
        exact List.mem_cons_of_mem _ hp2
    calc findRow (store_cluster_assignments parseUuid (a :: rest) rows) id
        = findRow (store_cluster_assignments parseUuid rest
            (store_one_assignment parseUuid rows a)) id := rfl
      _ = findRow (store_one_assignment parseUuid rows a) id := ih _ id hrest
      _ = findRow rows id := hstep

/-- C10: when a clustering run stores its assignments over existing
AnomalyResult rows (assignment keys parsing to pairwise distinct ids, as
they do coming from a Python dict), a log entry that already has a row
gets exactly its cluster_id and detection_method replaced - its
anomaly_score, is_anomaly and llm_reasoning survive verbatim - while a
log entry without a row gets a fresh one scored 0 whose is_anomaly flag
is the comparison of its cluster id with the -1 outlier sentinel. -/
theorem store_cluster_assignments_spec :
    ∀ (parseUuid : String → Option String) (asgs : List (String × Int))
      (rows : List AnomalyRow) (id : String) (cid : Int),
      ((parsedAssignments parseUuid asgs).map Prod.fst).Nodup →
      (id, cid) ∈ parsedAssignments parseUuid asgs →
      ((∀ r : AnomalyRow, findRow rows id = some r →
          findRow (store_cluster_assignments parseUuid asgs rows) id =
            some { r with cluster_id := some cid, detection_method := "HDBSCAN" })
        ∧ (findRow rows id = none →
            findRow (store_cluster_assignments parseUuid asgs rows) id =
              some { log_entry_id := id, anomaly_score := 0, is_anomaly := cid = -1,
                     detection_method := "HDBSCAN", cluster_id := some cid,
                     llm_reasoning := none })) := by
  intro parseUuid asgs
  induction asgs with
  | nil =>
    intro rows id cid _ hmem
    simp [parsedAssignments] at hmem
  | cons a rest ih =>
    intro rows id cid hnodup hmem
    cases hp : parseUuid a.1 with
    | none =>
      rw [parsedAssignments_cons_none parseUuid a rest hp] at hnodup hmem
      have hrec := ih rows id cid hnodup hmem
      have hrw : store_cluster_assignments parseUuid (a :: rest) rows =
          store_cluster_assignments parseUuid rest rows := by
        show store_cluster_assignments parseUuid rest (store_one_assignment parseUuid rows a) =
          store_cluster_assignments parseUuid rest rows
        rw [store_one_assignment_skip parseUuid rows a hp]
      rw [hrw]
      exact hrec
    | some id2 =>
      rw [parsedAssignments_cons_some parseUuid a rest id2 hp] at hnodup hmem
      rw [List.map_cons] at hnodup
      have hnodup2 : ((parsedAssignments parseUuid rest).map Prod.fst).Nodup := hnodup.of_cons
      have hnotmem : id2 ∉ (parsedAssignments parseUuid rest).map Prod.fst :=
        (List.nodup_cons.mp hnodup).1
      rcases List.mem_cons.mp hmem with heq | hmem2
      · have hid : id = id2 := congrArg Prod.fst heq
        have hcid : cid = a.2 := congrArg Prod.snd heq
        rw [← hid] at hp hnotmem
        have hothers : ∀ p ∈ parsedAssignments parseUuid rest, p.1 ≠ id := by
          intro p hp2 he
          exact hnotmem (List.mem_map.mpr ⟨p, hp2, he⟩)
        constructor
        · intro r hr
          have hstep : findRow (store_one_assignment parseUuid rows a) id =
              some { r with cluster_id := some cid, detection_method := "HDBSCAN" } := by
            rw [store_one_assignment_update parseUuid rows a id r hp hr,
                findRow_updateFirstRow rows id id
                  (fun r2 => { r2 with cluster_id := some a.2, detection_method := "HDBSCAN" })
                  (fun r2 => rfl), if_pos rfl, hr, hcid]
            rfl
          calc findRow (store_cluster_assignments parseUuid (a :: rest) rows) id
              = findRow (store_cluster_assignments parseUuid rest
                  (store_one_assignment parseUuid rows a)) id := rfl
            _ = findRow (store_one_assignment parseUuid rows a) id :=
                findRow_store_all_other parseUuid rest _ id hothers
            _ = some { r with cluster_id := some cid, detection_method := "HDBSCAN" } := hstep
        · intro hr
          have hstep : findRow (store_one_assignment parseUuid rows a) id =
              some { log_entry_id := id, anomaly_score := 0, is_anomaly := cid = -1,
                     detection_method := "HDBSCAN", cluster_id := some cid,
                     llm_reasoning := none } := by
            rw [store_one_assignment_insert parseUuid rows a id hp hr,
                findRow_append_single, hr, hcid]
            simp
          calc findRow (store_cluster_assignments parseUuid (a :: rest) rows) id
              = findRow (store_cluster_assignments parseUuid rest
                  (store_one_assignment parseUuid rows a)) id := rfl
            _ = findRow (store_one_assignment parseUuid rows a) id :=
                findRow_store_all_other parseUuid rest _ id hothers
            _ = some { log_entry_id := id, anomaly_score := 0, is_anomaly := cid = -1,
                       detection_method := "HDBSCAN", cluster_id := some cid,
                       llm_reasoning := none } := hstep
      · have hne : id2 ≠ id := by
          intro he
          rw [he] at hnotmem
          exact hnotmem (List.mem_map.mpr ⟨(id, cid), hmem2, rfl⟩)
        have hstep : findRow (store_one_assignment parseUuid rows a) id = findRow rows id :=
          findRow_store_one_other parseUuid rows a id
            (fun i2 hpi => by rw [hp] at hpi; exact (Option.some.inj hpi) ▸ hne)
        have hrec := ih (store_one_assignment parseUuid rows a) id cid hnodup2 hmem2
        constructor
        · intro r hr
          exact hrec.1 r (hstep.trans hr)
        · intro hr
          exact hrec.2 (hstep.trans hr)


/-- C10 witness: one run over a two-row table with one pre-existing row
(keeping its score, flag and reasoning) and one fresh outlier row. -/
theorem store_cluster_assignments_spec_witness :
    (((parsedAssignments some [("a", 3), ("b", -1)]).map Prod.fst).Nodup
      ∧ ("a", (3 : Int)) ∈ parsedAssignments some [("a", 3), ("b", -1)]
      ∧ ("b", (-1 : Int)) ∈ parsedAssignments some [("a", 3), ("b", -1)])
    ∧ findRow (store_cluster_assignments some [("a", 3), ("b", -1)]
        [{ log_entry_id := "a", anomaly_score := 7, is_anomaly := true,
           detection_method := "Z-score", cluster_id := none,
           llm_reasoning := some "old reasoning" }]) "a" =
      some { log_entry_id := "a", anomaly_score := 7, is_anomaly := true,
             detection_method := "HDBSCAN", cluster_id := some 3,
             llm_reasoning := some "old reasoning" }
    ∧ findRow (store_cluster_assignments some [("a", 3), ("b", -1)]
        [{ log_entry_id := "a", anomaly_score := 7, is_anomaly := true,
           detection_method := "Z-score", cluster_id := none,
           llm_reasoning := some "old reasoning" }]) "b" =
      some { log_entry_id := "b", anomaly_score := 0, is_anomaly := ((-1 : Int) = -1),
             detection_method := "HDBSCAN", cluster_id := some (-1),
             llm_reasoning := none } := by
  refine ⟨⟨by decide, by decide, by decide⟩, ?_, ?_⟩
  · exact (store_cluster_assignments_spec some [("a", 3), ("b", -1)]
      [{ log_entry_id := "a", anomaly_score := 7, is_anomaly := true,
         detection_method := "Z-score", cluster_id := none,
         llm_reasoning := some "old reasoning" }] "a" 3 (by decide) (by decide)).1
      { log_entry_id := "a", anomaly_score := 7, is_anomaly := true,
        detection_method := "Z-score", cluster_id := none,
        llm_reasoning := some "old reasoning" } (by decide)
  · exact (store_cluster_assignments_spec some [("a", 3), ("b", -1)]
      [{ log_entry_id := "a", anomaly_score := 7, is_anomaly := true,
         detection_method := "Z-score", cluster_id := none,
         llm_reasoning := some "old reasoning" }] "b" (-1) (by decide) (by decide)).2
      (by decide)

/-- check_budget with a configured cap and an over-cap projection returns
the distinguished error carrying the current spending and the cap. -/
theorem check_budget_exceeded (cfg : EmbeddingConfig) (today : Nat) (est : ℚ)
    (st : EmbeddingState) (b : ℚ)
    (hb : cfg.daily_budget = some b)
    (h : b < (get_current_daily_spending today st).1 + est) :
    check_budget cfg today est st =
      (.error ⟨(get_current_daily_spending today st).1, b⟩,
        (get_current_daily_spending today st).2) := by
  unfold check_budget
  rw [hb]
  rcases hg : get_current_daily_spending today st with ⟨cur, st1⟩
  rw [hg] at h
  dsimp only at h ⊢
  rw [if_pos h]

/-- A call succeeding on its first attempt makes the retry wrapper issue
exactly one remote invocation. -/
theorem retry_first_attempt_ok {α : Type} (cfg : EmbeddingConfig)
    (call : Nat → RetryOutcome α) (v : α)
    (hm : 0 < cfg.max_retries) (hc : call 0 = .ok v) :
    retry_with_backoff cfg call = (some v, 1) := by
  unfold retry_with_backoff retryGo
  rw [dif_pos hm, hc]

/-- Looking up the key just inserted into the cache yields the new value. -/
theorem lookup_cacheInsert (m : List (String × EmbResult)) (k : String) (v : EmbResult) :
    (cacheInsert m k v).lookup k = some v := by
  induction m with
  | nil => simp [cacheInsert, List.lookup]
  | cons p rest ih =>
    rcases p with ⟨k2, v2⟩
    unfold cacheInsert
    by_cases h : k2 = k
    · rw [if_pos h]
      simp [List.lookup]
    · rw [if_neg h]
      have hbk : (k == k2) = false := beq_eq_false_iff_ne.mpr (fun e => h e.symm)
      simp only [List.lookup, hbk]
      exact ih

/-- C2: with a daily budget cap configured, a request whose current daily
spending plus the length-derived cost estimate (for a batch call the
estimate summed over its uncached texts) strictly exceeds the cap fails
with the distinguished BudgetExceededError, carrying the spending and the
cap, and issues zero remote calls. -/
theorem budget_exceeded_fails_fast :
    (∀ (cfg : EmbeddingConfig) (call : Nat → RetryOutcome SingleResponse)
        (hash : String → String) (now today : Nat) (text : String)
        (use_cache : Bool) (st : EmbeddingState) (b : ℚ),
        cfg.hasClient = true →
        cfg.daily_budget = some b →
        (use_cache = true → st.cache.lookup (hash text) = none) →
        b < (get_current_daily_spending today st).1 + calculate_cost (text.length / 4) →
        generate_embedding cfg call hash now today text use_cache st =
          ⟨.error ⟨(get_current_daily_spending today st).1, b⟩,
            (get_current_daily_spending today st).2, 0⟩)
    ∧ (∀ (cfg : EmbeddingConfig) (callB : List String → Nat → RetryOutcome BatchResponse)
        (hash : String → String) (now today : Nat) (texts : List String)
        (use_cache : Bool) (st : EmbeddingState) (b : ℚ),
        cfg.hasClient = true →
        cfg.daily_budget = some b →
        ¬(texts = []) →
        ¬(uncachedPairs hash texts use_cache st = []) →
        b < (get_current_daily_spending today st).1 +
          batchEstimatedCost (uncachedPairs hash texts use_cache st) →
        generate_embeddings_batch cfg callB hash now today texts use_cache st =
          ⟨.error ⟨(get_current_daily_spending today st).1, b⟩,
            (get_current_daily_spending today st).2, 0⟩) := by
  constructor
  · intro cfg call hash now today text use_cache st b h1 h2 h3 h4
    have hni : ¬(cfg.hasClient = false) := by rw [h1]; simp
    unfold generate_embedding
    rw [if_neg hni]
    have hcc : (if use_cache = true then st.cache.lookup (hash text) else none) = none := by
      cases use_cache
      · rfl
      · exact h3 rfl
    rw [hcc]
    dsimp only
    rw [check_budget_exceeded cfg today (calculate_cost (text.length / 4)) st b h2 h4]
  · intro cfg callB hash now today texts use_cache st b h1 h2 h3 h4 h5
    have hni : ¬(cfg.hasClient = false) := by rw [h1]; simp
    unfold generate_embeddings_batch
    rw [if_neg hni, if_neg h3]
    dsimp only
    rw [if_neg h4]
    rw [check_budget_exceeded cfg today
      (batchEstimatedCost (uncachedPairs hash texts use_cache st)) st b h2 h5]

/-- C2 witness: a configured cap strictly below the length-derived cost
estimate of the eight-character text (two estimated tokens, costing
4e-8 dollars against a 1e-9 dollar cap): both the single-text call and
the one-text batch call fail with the budget error, carrying the current
spending and the cap, and issue no remote call. -/
theorem budget_exceeded_fails_fast_witness :
    ((1 : ℚ)/1000000000 <
      (get_current_daily_spending 0 ⟨[], 0, []⟩).1 +
        calculate_cost ("abcdefgh".length / 4))
    ∧ (generate_embedding { hasClient := true, daily_budget := some (1/1000000000) }
        (fun _ => .failed) (fun _ => "h") 0 0 "abcdefgh" true ⟨[], 0, []⟩).result =
      .error ⟨0, 1/1000000000⟩
    ∧ (generate_embedding { hasClient := true, daily_budget := some (1/1000000000) }
        (fun _ => .failed) (fun _ => "h") 0 0 "abcdefgh" true ⟨[], 0, []⟩).remoteCalls = 0
    ∧ (generate_embeddings_batch { hasClient := true, daily_budget := some (1/1000000000) }
        (fun _ _ => .failed) (fun _ => "h") 0 0 ["abcdefgh"] true ⟨[], 0, []⟩).result =
      .error ⟨0, 1/1000000000⟩
    ∧ (generate_embeddings_batch { hasClient := true, daily_budget := some (1/1000000000) }
        (fun _ _ => .failed) (fun _ => "h") 0 0 ["abcdefgh"] true ⟨[], 0, []⟩).remoteCalls
      = 0 := by
  have hlen : ("abcdefgh".length / 4) = 2 := rfl
  have hcost : calculate_cost ("abcdefgh".length / 4) = 1/25000000 := by
    rw [hlen]
    norm_num [calculate_cost, EMBEDDING_COST_PER_1M_TOKENS]
  have hsp : (get_current_daily_spending 0 (⟨[], 0, []⟩ : EmbeddingState)).1 = 0 := rfl
  have hlt : (1 : ℚ)/1000000000 <
      (get_current_daily_spending 0 (⟨[], 0, []⟩ : EmbeddingState)).1 +
        calculate_cost ("abcdefgh".length / 4) := by
    rw [hsp, hcost]
    norm_num
  have hsingle := budget_exceeded_fails_fast.1
    { hasClient := true, daily_budget := some (1/1000000000) } (fun _ => .failed)
    (fun _ => "h") 0 0 "abcdefgh" true ⟨[], 0, []⟩ (1/1000000000) rfl rfl (fun _ => rfl) hlt
  have hun : uncachedPairs (fun _ => "h") ["abcdefgh"] true ⟨[], 0, []⟩ =
      [(0, "abcdefgh")] := rfl
  have hbe : (1 : ℚ)/1000000000 <
      (get_current_daily_spending 0 (⟨[], 0, []⟩ : EmbeddingState)).1 +
        batchEstimatedCost (uncachedPairs (fun _ => "h") ["abcdefgh"] true ⟨[], 0, []⟩) := by
    rw [hun]
    show (1 : ℚ)/1000000000 <
      (get_current_daily_spending 0 (⟨[], 0, []⟩ : EmbeddingState)).1 +
        calculate_cost (0 + "abcdefgh".length / 4)
    rw [hsp, hlen]
    norm_num [calculate_cost, EMBEDDING_COST_PER_1M_TOKENS]
  have hbatch := budget_exceeded_fails_fast.2
    { hasClient := true, daily_budget := some (1/1000000000) } (fun _ _ => .failed)
    (fun _ => "h") 0 0 ["abcdefgh"] true ⟨[], 0, []⟩ (1/1000000000) rfl rfl (by simp)
    (by rw [hun]; simp) hbe
  refine ⟨hlt, ?_, ?_, ?_, ?_⟩
  · rw [hsingle, hsp]
  · rw [hsingle]
  · rw [hbatch, hsp]
  · rw [hbatch]

/-- C5: with caching enabled, a client configured, a cache miss, a passing
budget check and a first-attempt remote success, generate_embedding issues
exactly one remote call and caches its result under the content hash; an
immediately following call for the same text (any remote behaviour, any
clock) issues zero remote calls, leaves the state untouched, and returns
the identical embedding vector marked cached. -/
theorem embedding_cache_hit_short_circuits
    (cfg : EmbeddingConfig) (call : Nat → RetryOutcome SingleResponse)
    (hash : String → String) (now1 today1 : Nat) (text : String)
    (st : EmbeddingState) (resp : SingleResponse)
    (h1 : cfg.hasClient = true)
    (hm : 0 < cfg.max_retries)
    (h3 : st.cache.lookup (hash text) = none)
    (h4 : (check_budget cfg today1 (calculate_cost (text.length / 4)) st).1 = .ok ())
    (h5 : call 0 = .ok resp) :
    ∃ r : EmbResult,
      (generate_embedding cfg call hash now1 today1 text true st).result = .ok (some r)
      ∧ (generate_embedding cfg call hash now1 today1 text true st).remoteCalls = 1
      ∧ r.cached = false
      ∧ r.embedding = resp.embedding
      ∧ (∀ (call2 : Nat → RetryOutcome SingleResponse) (now2 today2 : Nat),
          generate_embedding cfg call2 hash now2 today2 text true
              (generate_embedding cfg call hash now1 today1 text true st).state =
            ⟨.ok (some { r with timestamp := now2, cached := true }),
              (generate_embedding cfg call hash now1 today1 text true st).state, 0⟩) := by
  have hni : ¬(cfg.hasClient = false) := by rw [h1]; simp
  have hcb : check_budget cfg today1 (calculate_cost (text.length / 4)) st =
      (.ok (), (check_budget cfg today1 (calculate_cost (text.length / 4)) st).2) := by
    have hpair : check_budget cfg today1 (calculate_cost (text.length / 4)) st =
        ((check_budget cfg today1 (calculate_cost (text.length / 4)) st).1,
         (check_budget cfg today1 (calculate_cost (text.length / 4)) st).2) := rfl
    rw [h4] at hpair
    exact hpair
  have hretry := retry_first_attempt_ok cfg call resp hm h5
  have ho1 : generate_embedding cfg call hash now1 today1 text true st =
      ⟨.ok (some { embedding := resp.embedding, model := "text-embedding-3-small",
                   timestamp := now1, cost_usd := calculate_cost (resp.usage.getD 0),
                   tokens := resp.usage.getD 0, cached := false }),
        { (record_spending today1 (calculate_cost (resp.usage.getD 0))
            (check_budget cfg today1 (calculate_cost (text.length / 4)) st).2) with
            cache := cacheInsert
              (record_spending today1 (calculate_cost (resp.usage.getD 0))
                (check_budget cfg today1 (calculate_cost (text.length / 4)) st).2).cache
              (hash text)
              { embedding := resp.embedding, model := "text-embedding-3-small",
                timestamp := now1, cost_usd := calculate_cost (resp.usage.getD 0),
                tokens := resp.usage.getD 0, cached := false } }, 1⟩ := by
    unfold generate_embedding
    rw [if_neg hni, if_pos rfl, h3]
    dsimp only
    rw [hcb]
    dsimp only
    rw [hretry]
    rfl
  refine ⟨{ embedding := resp.embedding, model := "text-embedding-3-small",
            timestamp := now1, cost_usd := calculate_cost (resp.usage.getD 0),
            tokens := resp.usage.getD 0, cached := false },
    by rw [ho1], by rw [ho1], rfl, rfl, ?_⟩
  intro call2 now2 today2
  rw [ho1]
  unfold generate_embedding
  rw [if_neg hni, if_pos rfl]
  have hl : (cacheInsert
      (record_spending today1 (calculate_cost (resp.usage.getD 0))
        (check_budget cfg today1 (calculate_cost (text.length / 4)) st).2).cache
      (hash text)
      { embedding := resp.embedding, model := "text-embedding-3-small",
        timestamp := now1, cost_usd := calculate_cost (resp.usage.getD 0),
        tokens := resp.usage.getD 0, cached := false }).lookup (hash text) =
      some { embedding := resp.embedding, model := "text-embedding-3-small",
             timestamp := now1, cost_usd := calculate_cost (resp.usage.getD 0),
             tokens := resp.usage.getD 0, cached := false } :=
    lookup_cacheInsert _ _ _
  rw [hl]

/-- C5 witness: a concrete two-call run on an empty-state service with an
unlimited budget: the first call issues the single remote call, the
second is served from the cache with an identical vector. -/
theorem embedding_cache_hit_short_circuits_witness :
    (({ hasClient := true, daily_budget := none } : EmbeddingConfig)).hasClient = true
    ∧ (0 : Nat) < ({ hasClient := true, daily_budget := none } : EmbeddingConfig).max_retries
    ∧ (⟨[], 0, []⟩ : EmbeddingState).cache.lookup "hello" = none
    ∧ ∃ r : EmbResult,
        (generate_embedding { hasClient := true, daily_budget := none }
          (fun _ => .ok ⟨[1, 2, 3], some 5⟩) (fun s => s) 1 0 "hello" true
          ⟨[], 0, []⟩).result = .ok (some r)
        ∧ (generate_embedding { hasClient := true, daily_budget := none }
            (fun _ => .ok ⟨[1, 2, 3], some 5⟩) (fun s => s) 1 0 "hello" true
            ⟨[], 0, []⟩).remoteCalls = 1
        ∧ r.cached = false
        ∧ r.embedding = [1, 2, 3]
        ∧ generate_embedding { hasClient := true, daily_budget := none }
            (fun _ => .failed) (fun s => s) 2 0 "hello" true
            (generate_embedding { hasClient := true, daily_budget := none }
              (fun _ => .ok ⟨[1, 2, 3], some 5⟩) (fun s => s) 1 0 "hello" true
              ⟨[], 0, []⟩).state =
          ⟨.ok (some { r with timestamp := 2, cached := true }),
            (generate_embedding { hasClient := true, daily_budget := none }
              (fun _ => .ok ⟨[1, 2, 3], some 5⟩) (fun s => s) 1 0 "hello" true
              ⟨[], 0, []⟩).state, 0⟩ := by
  refine ⟨rfl, by norm_num, rfl, ?_⟩
  obtain ⟨r, e1, e2, e3, e4, e5⟩ := embedding_cache_hit_short_circuits
    { hasClient := true, daily_budget := none } (fun _ => .ok ⟨[1, 2, 3], some 5⟩)
    (fun s => s) 1 0 "hello" ⟨[], 0, []⟩ ⟨[1, 2, 3], some 5⟩
    rfl (by norm_num) rfl rfl rfl
  exact ⟨r, e1, e2, e3, e4, e5 (fun _ => .failed) 2 0⟩

end LogPipeline
